import Mathlib

/-!
Verification of the WROLPi front-end API client layer (app/src/api.js).

The module under verification wraps outbound HTTP calls with a timeout guard
(`timeoutPromise`, `apiCall`) and exposes one operation function per backend
endpoint.  We embed the JavaScript shallowly:

* JavaScript values that flow through the client (JSON bodies, field reads,
  truthiness tests) are modelled by `JsValue`.
* A thrown JavaScript exception is modelled by `Except.error (e : JsError)`;
  an async function that resolves is `Except.ok`.
* The network is an oracle `f : Request → FetchBehavior`: for each request it
  tells whether the fetch promise ever settles, at which (millisecond) time,
  and with which result.  Time is a `Nat`; the single-threaded event-loop
  semantics of the race between the fetch promise and the `setTimeout` timer
  is captured by comparing the settle time with the timeout duration: the
  promise handlers run first exactly when the fetch settles strictly before
  the timer fires, and a JavaScript promise settles at most once, so the
  loser of the race cannot change the outcome.
* `toast(...)` calls (user-facing notifications) are collected in a list,
  returned next to the result, in emission order.
-/

/-- A JavaScript value as it occurs in this client: JSON data plus the
`undefined` and `NaN` values produced by missing-property reads and failed
numeric coercion. -/
inductive JsValue where
  | undefined : JsValue
  | null : JsValue
  | nan : JsValue
  | bool : Bool → JsValue
  | num : Int → JsValue
  | str : String → JsValue
  | arr : List JsValue → JsValue
  | obj : List (String × JsValue) → JsValue
deriving Repr

/-- A thrown JavaScript exception, as the client can observe one:
the rejection `Error("promise timeout")` manufactured by `timeoutPromise`,
a JSON `SyntaxError` from `response.json()` on a body that is absent or not
valid JSON, a `TypeError` from property access on `undefined`/`null`,
a network-level fetch rejection, and `new Error(msg)` thrown by the client
itself. -/
inductive JsError where
  | promiseTimeout : JsError
  | syntaxError : JsError
  | typeError : JsError
  | networkError : JsError
  | jsError : String → JsError
deriving Repr, DecidableEq

/-- A fetch `Response` as the client consumes it: the HTTP status, and the
result of parsing the body as JSON — `some v` when the body is valid JSON
parsing to `v`, `none` when the body is absent or not valid JSON (in which
case `response.json()` rejects with a `SyntaxError`).  `response.clone()`
yields a response with the same data, so cloning is the identity here. -/
structure Response where
  status : Nat
  body : Option JsValue
deriving Repr

/-- One `toast(...)` notification: type, title, description, display time. -/
structure Toast where
  type : String
  title : String
  description : String
  time : Nat
deriving Repr, DecidableEq

/-- The request `apiCall` hands to `fetch`: target URL, HTTP method, and the
optional JSON body (the source sets `init.body = JSON.stringify(body)` only
when `body !== undefined`, modelled by `Option`). -/
structure Request where
  url : String
  method : String
  body : Option JsValue

/-- Behaviour of the fetch promise for one request: `none` when it never
settles, `some (t, r)` when it settles at millisecond `t` with result `r`
(resolution with a `Response` or rejection with an error). -/
def FetchBehavior := Option (Nat × Except JsError Response)

/-- A network oracle: the fetch behaviour of every request. -/
def FetchOracle := Request → FetchBehavior

/-- JavaScript truthiness, for the `if (x)` and `x || y` tests of the client. -/
def truthy : JsValue → Bool
  | .undefined => false
  | .null => false
  | .nan => false
  | .bool b => b
  | .num n => n != 0
  | .str s => s != ""
  | .arr _ => true
  | .obj _ => true

/-- JavaScript `a || b`. -/
def jsOr (a b : JsValue) : JsValue :=
  if truthy a then a else b

/-- First binding of `k` in an object literal (object keys are unique in
every body this client builds or receives). -/
def lookupField : List (String × JsValue) → String → JsValue
  | [], _ => .undefined
  | (k', v) :: rest, k => if k' = k then v else lookupField rest k

/-- JavaScript property access `v[k]`: a `TypeError` on `undefined` or
`null`, the field (or `undefined` when absent) on an object, and `undefined`
on every other primitive. -/
def jsGet : JsValue → String → Except JsError JsValue
  | .undefined, _ => .error .typeError
  | .null, _ => .error .typeError
  | .obj fields, k => .ok (lookupField fields k)
  | _, _ => .ok .undefined

/-- JavaScript strict equality `v === n` against an integer literal, as used
for the error-code checks (`code === 17` and the like). -/
def jsEqNum : JsValue → Int → Bool
  | .num m, n => m == n
  | _, _ => false

/-- Awaiting `response.json()`: the parsed body, or a rejection with a
`SyntaxError` when the body is absent or not valid JSON. -/
def responseJson (r : Response) : Except JsError JsValue :=
  match r.body with
  | some v => .ok v
  | none => .error .syntaxError

/-- Which side of the `timeoutPromise` race settled the wrapper promise. -/
inductive RaceOutcome where
  | settled : Except JsError Response → RaceOutcome
  | timedOut : RaceOutcome
deriving Repr

/-- Result of running `timeoutPromise`: the wrapper promise outcome, whether
the `setTimeout` timer is still outstanding after the race is over (and any
late fetch-settlement handlers have run), and whether the timer callback ever
fired. -/
structure RaceResult where
  outcome : RaceOutcome
  timerPending : Bool
  timerFired : Bool
deriving Repr

/-- The fetch promise has not settled within `ms` milliseconds: it never
settles at all, or settles only at a time at which the timer has already
fired. -/
def unsettledWithin (ms : Nat) : FetchBehavior → Bool
  | none => true
  | some (t, _) => ms ≤ t

/-- The race `timeoutPromise(ms, promise)` of api.js.  A `setTimeout` timer is
armed for `ms` milliseconds and the promise handlers clear it on settlement.
If the fetch settles strictly before the timer fires, its handler runs
`clearTimeout` and the wrapper settles with the fetch result: the timer never
fires and no timeout rejection can occur later.  Otherwise the timer fires
first and rejects the wrapper with `Error("promise timeout")`; the timer is
then spent, and a later fetch settlement only runs `clearTimeout` on a dead
timer and resolves an already-settled promise, a no-op.  In every case no
outstanding timer is left behind. -/
def timeoutPromise (ms : Nat) (fetch : FetchBehavior) : RaceResult :=
  match fetch with
  | some (t, r) =>
    if t < ms then
      ⟨.settled r, false, false⟩
    else
      ⟨.timedOut, false, true⟩
  | none => ⟨.timedOut, false, true⟩

/-- The toast emitted by `apiCall` when the backend rejects a call with
status 403 and error code 17 (WROL mode, the write-protected mode). -/
def wrolModeToast : Toast :=
  ⟨"error", "WROL Mode is enabled!",
    "This functionality is disabled while WROL Mode is enabled!", 5000⟩

/-- The guarded executor `apiCall(url, method, body, ms = 60_000)` of api.js.
It races the fetch against the timeout.  A settled response with 2xx status
is returned as is.  On a non-2xx status it awaits `response.clone().json()`
and reads the `code` field — a rejection there (absent or malformed body,
or property access on a non-object) escapes to the `catch` block, which
rethrows — and emits the WROL-mode toast when status is 403 and code is 17,
then returns the raw response.  A timeout or fetch rejection is rethrown by
the same `catch` block. -/
def apiCall (f : FetchOracle) (url method : String) (body : Option JsValue)
    (ms : Nat) : Except JsError Response × List Toast :=
  match (timeoutPromise ms (f ⟨url, method, body⟩)).outcome with
  | .timedOut => (.error .promiseTimeout, [])
  | .settled (.error e) => (.error e, [])
  | .settled (.ok response) =>
    if 200 ≤ response.status ∧ response.status < 300 then
      (.ok response, [])
    else
      match responseJson response with
      | .error e => (.error e, [])
      | .ok v =>
        match jsGet v "code" with
        | .error e => (.error e, [])
        | .ok code =>
          if response.status = 403 ∧ jsEqNum code 17 then
            (.ok response, [wrolModeToast])
          else
            (.ok response, [])

/-- Timeout used by every convenience wrapper: the default `ms = 60_000` of
`apiCall`, which the wrappers leave in place by passing no timeout. -/
def defaultTimeoutMs : Nat := 60000

/-- Wrapper `apiGet(url)`. -/
def apiGet (f : FetchOracle) (url : String) : Except JsError Response × List Toast :=
  apiCall f url "GET" none defaultTimeoutMs

/-- Wrapper `apiDelete(url)`. -/
def apiDelete (f : FetchOracle) (url : String) : Except JsError Response × List Toast :=
  apiCall f url "DELETE" none defaultTimeoutMs

/-- Wrapper `apiPost(url, body)`. -/
def apiPost (f : FetchOracle) (url : String) (body : Option JsValue) :
    Except JsError Response × List Toast :=
  apiCall f url "POST" body defaultTimeoutMs

/-- Wrapper `apiPut(url, body)`. -/
def apiPut (f : FetchOracle) (url : String) (body : Option JsValue) :
    Except JsError Response × List Toast :=
  apiCall f url "PUT" body defaultTimeoutMs

/-- Wrapper `apiPatch(url, body)`. -/
def apiPatch (f : FetchOracle) (url : String) (body : Option JsValue) :
    Except JsError Response × List Toast :=
  apiCall f url "PATCH" body defaultTimeoutMs

/-- Modelled from the spec: the base API path constant `API_URI`, imported by
api.js from `components/Common`, which is not among the provided sources.  The
spec describes "JSON-over-HTTP REST conventions against a base API path"; the
concrete string is irrelevant to every property below, which treat URLs as
opaque request identifiers. -/
def API_URI : String := "/api"

/-- Modelled from the spec: the videos sub-resource base path from
`components/Common` (sources absent); sub-resources are "grouped by domain". -/
def VIDEOS_API : String := API_URI ++ "/videos"

/-- Modelled from the spec: the archives sub-resource base path from
`components/Common` (sources absent). -/
def ARCHIVES_API : String := API_URI ++ "/archive"

/-- Modelled from the spec: the default paging limit `DEFAULT_LIMIT` from
`components/Common` (sources absent); only its presence as the `limit`
fallback matters to the properties below, never its numeric value. -/
def DEFAULT_LIMIT : JsValue := .num 20

/-- Leading decimal digits of a character list. -/
def leadingDigits : List Char → List Char
  | [] => []
  | c :: cs => if c.isDigit then c :: leadingDigits cs else []

/-- Numeric value of a digit list. -/
def digitsToNat (ds : List Char) : Nat :=
  ds.foldl (fun acc c => acc * 10 + (c.toNat - 48)) 0

/-- JavaScript `parseInt` on the characters of a trimmed string: an optional
sign followed by leading decimal digits; `NaN` when no digits lead. -/
def parseIntChars : List Char → JsValue
  | '-' :: cs =>
    match leadingDigits cs with
    | [] => .nan
    | ds => .num (-(digitsToNat ds : Int))
  | '+' :: cs =>
    match leadingDigits cs with
    | [] => .nan
    | ds => .num (digitsToNat ds)
  | cs =>
    match leadingDigits cs with
    | [] => .nan
    | ds => .num (digitsToNat ds)

/-- JavaScript `parseInt(v)` as the client uses it: numbers pass through,
strings are parsed for a leading integer, and every other value the call
sites can produce (`undefined`, `null`, booleans) stringifies to something
with no leading digits and yields `NaN`.  No call site passes arrays or
objects, so their ToString coercion is also modelled as `NaN`. -/
def parseIntJs : JsValue → JsValue
  | .num n => .num n
  | .str s => parseIntChars s.trim.data
  | _ => .nan

/-- Result of one async operation function: the resolved value or the thrown
error, next to the toasts emitted along the way. -/
abbrev ApiResult (α : Type) := Except JsError α × List Toast

/-- Toast of `getChannels` on an unexpected status. -/
def getChannelsFailToast : Toast :=
  ⟨"error", "Unexpected server response", "Failed to get channels.  See server logs.", 5000⟩

/-- The operation `getChannels()`: GET the channels listing; on status 200
resolve with the `channels` field of the body, otherwise toast an error and
resolve with `undefined` (the source has no `return` on that branch). -/
def getChannels (f : FetchOracle) : ApiResult JsValue :=
  match apiGet f (VIDEOS_API ++ "/channels") with
  | (.error e, ts) => (.error e, ts)
  | (.ok response, ts) =>
    if response.status = 200 then
      match responseJson response with
      | .error e => (.error e, ts)
      | .ok v =>
        match jsGet v "channels" with
        | .error e => (.error e, ts)
        | .ok channels => (.ok channels, ts)
    else
      (.ok .undefined, ts ++ [getChannelsFailToast])

/-- The request body `searchVideos` builds: coerced offset and limit, the
order (defaulting to rank), then each optional field only when truthy. -/
def searchVideosBody (offset limit channelId searchStr order_by tagNames headline : JsValue) :
    JsValue :=
  let base := [("offset", parseIntJs (jsOr offset (.num 0))),
               ("limit", parseIntJs (jsOr limit DEFAULT_LIMIT)),
               ("order_by", jsOr order_by (.str "rank"))]
  let base := if truthy searchStr then base ++ [("search_str", searchStr)] else base
  let base := if truthy channelId then base ++ [("channel_id", parseIntJs channelId)] else base
  let base := if truthy tagNames then base ++ [("tag_names", tagNames)] else base
  let base := if truthy headline then base ++ [("headline", .bool true)] else base
  .obj base

/-- Toast of `searchVideos` on an unexpected status. -/
def searchVideosFailToast : Toast :=
  ⟨"error", "Unexpected server response", "Failed to search videos.  See server logs.", 5000⟩

/-- The operation `searchVideos(...)`: POST the search body; on status 200
resolve with the pair `[data.file_groups, data.totals.file_groups]`,
otherwise toast an error and resolve with `[[], 0]`. -/
def searchVideos (f : FetchOracle)
    (offset limit channelId searchStr order_by tagNames headline : JsValue) :
    ApiResult (JsValue × JsValue) :=
  let body := searchVideosBody offset limit channelId searchStr order_by tagNames headline
  match apiPost f (VIDEOS_API ++ "/search") (some body) with
  | (.error e, ts) => (.error e, ts)
  | (.ok response, ts) =>
    if response.status = 200 then
      match responseJson response with
      | .error e => (.error e, ts)
      | .ok data =>
        match jsGet data "file_groups" with
        | .error e => (.error e, ts)
        | .ok fileGroups =>
          match jsGet data "totals" with
          | .error e => (.error e, ts)
          | .ok totals =>
            match jsGet totals "file_groups" with
            | .error e => (.error e, ts)
            | .ok total => (.ok (fileGroups, total), ts)
    else
      (.ok (.arr [], .num 0), ts ++ [searchVideosFailToast])

/-- The request body `searchArchives` builds. -/
def searchArchivesBody (offset limit domain searchStr order tagNames headline : JsValue) :
    JsValue :=
  let base := [("offset", parseIntJs (jsOr offset (.num 0))),
               ("limit", parseIntJs (jsOr limit DEFAULT_LIMIT))]
  let base := if truthy domain then base ++ [("domain", domain)] else base
  let base := if truthy searchStr then base ++ [("search_str", searchStr)] else base
  let base := if truthy order then base ++ [("order_by", order)] else base
  let base := if truthy tagNames then base ++ [("tag_names", tagNames)] else base
  let base := if truthy headline then base ++ [("headline", .bool true)] else base
  .obj base

/-- Toast of `searchArchives` on an unexpected status. -/
def searchArchivesFailToast : Toast :=
  ⟨"error", "Unable to search archives", "Cannot search archives.  See server logs.", 5000⟩

/-- The operation `searchArchives(...)`: POST the search body; on status 200
resolve with `[data.file_groups, data.totals.file_groups]`, otherwise toast
an error and resolve with `[[], 0]`. -/
def searchArchives (f : FetchOracle)
    (offset limit domain searchStr order tagNames headline : JsValue) :
    ApiResult (JsValue × JsValue) :=
  let body := searchArchivesBody offset limit domain searchStr order tagNames headline
  match apiPost f (ARCHIVES_API ++ "/search") (some body) with
  | (.error e, ts) => (.error e, ts)
  | (.ok response, ts) =>
    if response.status = 200 then
      match responseJson response with
      | .error e => (.error e, ts)
      | .ok data =>
        match jsGet data "file_groups" with
        | .error e => (.error e, ts)
        | .ok fileGroups =>
          match jsGet data "totals" with
          | .error e => (.error e, ts)
          | .ok totals =>
            match jsGet totals "file_groups" with
            | .error e => (.error e, ts)
            | .ok total => (.ok (fileGroups, total), ts)
    else
      (.ok (.arr [], .num 0), ts ++ [searchArchivesFailToast])

/-- The request body `filesSearch` builds: search string and coerced paging,
then each optional field only when truthy. -/
def filesSearchBody (offset limit searchStr mimetypes model tagNames headline : JsValue) :
    JsValue :=
  let base := [("search_str", searchStr),
               ("offset", parseIntJs offset),
               ("limit", parseIntJs limit)]
  let base := if truthy mimetypes then base ++ [("mimetypes", mimetypes)] else base
  let base := if truthy model then base ++ [("model", model)] else base
  let base := if truthy tagNames then base ++ [("tag_names", tagNames)] else base
  let base := if truthy headline then base ++ [("headline", .bool true)] else base
  .obj base

/-- Toast of `filesSearch` on an unexpected status. -/
def filesSearchFailToast : Toast :=
  ⟨"error", "Unable to search files", "Cannot search files.  See server logs.", 5000⟩

/-- The operation `filesSearch(...)`: POST the search body; on status 200
resolve with `[data.file_groups, data.totals.file_groups]`, otherwise toast
an error and resolve with `[null, null]`. -/
def filesSearch (f : FetchOracle)
    (offset limit searchStr mimetypes model tagNames headline : JsValue) :
    ApiResult (JsValue × JsValue) :=
  let body := filesSearchBody offset limit searchStr mimetypes model tagNames headline
  match apiPost f (API_URI ++ "/files/search") (some body) with
  | (.error e, ts) => (.error e, ts)
  | (.ok response, ts) =>
    if response.status = 200 then
      match responseJson response with
      | .error e => (.error e, ts)
      | .ok data =>
        match jsGet data "file_groups" with
        | .error e => (.error e, ts)
        | .ok fileGroups =>
          match jsGet data "totals" with
          | .error e => (.error e, ts)
          | .ok totals =>
            match jsGet totals "file_groups" with
            | .error e => (.error e, ts)
            | .ok total => (.ok (fileGroups, total), ts)
    else
      (.ok (.null, .null), ts ++ [filesSearchFailToast])

/-- Toast of `getSettings` on an unexpected status. -/
def getSettingsFailToast : Toast :=
  ⟨"error", "Unexpected server response", "Could not get settings", 5000⟩

/-- The operation `getSettings()`: GET the settings; on status 200 resolve
with the parsed body, otherwise toast an error and resolve with `undefined`
(the source has no `return` on that branch). -/
def getSettings (f : FetchOracle) : ApiResult JsValue :=
  match apiGet f (API_URI ++ "/settings") with
  | (.error e, ts) => (.error e, ts)
  | (.ok response, ts) =>
    if response.status = 200 then
      match responseJson response with
      | .error e => (.error e, ts)
      | .ok v => (.ok v, ts)
    else
      (.ok .undefined, ts ++ [getSettingsFailToast])

/-- The operation `getHotspotStatus()`: await `getSettings()` and read its
`hotspot_status` property. -/
def getHotspotStatus (f : FetchOracle) : ApiResult JsValue :=
  match getSettings f with
  | (.error e, ts) => (.error e, ts)
  | (.ok settings, ts) =>
    match jsGet settings "hotspot_status" with
    | .error e => (.error e, ts)
    | .ok s => (.ok s, ts)

/-- The operation `getThrottleStatus()`: await `getSettings()` and read its
`throttle_status` property. -/
def getThrottleStatus (f : FetchOracle) : ApiResult JsValue :=
  match getSettings f with
  | (.error e, ts) => (.error e, ts)
  | (.ok settings, ts) =>
    match jsGet settings "throttle_status" with
    | .error e => (.error e, ts)
    | .ok s => (.ok s, ts)

/-- The default object `getDownloaders` resolves with when anything inside
its `try` block throws. -/
def emptyDownloaders : JsValue := .obj [("downloaders", .arr [])]

/-- The operation `getDownloaders()`: GET the downloaders and resolve with
the parsed body regardless of status; its `catch` turns every exception
(timeout included) into the resolution `{downloaders: []}`.  Toasts emitted
before the throw have already been displayed and remain. -/
def getDownloaders (f : FetchOracle) : ApiResult JsValue :=
  match apiGet f (API_URI ++ "/downloaders") with
  | (.error _, ts) => (.ok emptyDownloaders, ts)
  | (.ok response, ts) =>
    match responseJson response with
    | .error _ => (.ok emptyDownloaders, ts)
    | .ok v => (.ok v, ts)

/-- Toast of `deleteDownload` on a status other than 204. -/
def deleteDownloadFailToast : Toast :=
  ⟨"error", "Unable to delete", "Unable to delete the download.  See server logs.", 5000⟩

/-- The operation `deleteDownload(downloadId)`: DELETE the download; on a
status other than 204 toast an error; its `catch` turns every exception into
the resolution `null`.  Resolves with `undefined` on the normal path. -/
def deleteDownload (f : FetchOracle) (downloadId : String) : ApiResult JsValue :=
  match apiDelete f (API_URI ++ "/download/" ++ downloadId) with
  | (.error _, ts) => (.ok .null, ts)
  | (.ok response, ts) =>
    if response.status ≠ 204 then
      (.ok .undefined, ts ++ [deleteDownloadFailToast])
    else
      (.ok .undefined, ts)

/-- The operation `refreshChannel(channelId)`: it awaits a raw
`fetch(url, {method: POST})` with no `apiCall`, no timeout race and no
status handling.  With no timer to cut the wait short, a fetch that never
settles leaves the operation pending forever, so its result is an `Option`:
`none` when the await never completes. -/
def refreshChannel (f : FetchOracle) (channelId : String) :
    Option (ApiResult JsValue) :=
  match f ⟨VIDEOS_API ++ "/channels/refresh/" ++ channelId, "POST", none⟩ with
  | none => none
  | some (_, .ok _) => some (.ok .undefined, [])
  | some (_, .error e) => some (.error e, [])

/-- Toast of `postDownload` when no downloader is given. -/
def postDownloadMissingToast : Toast :=
  ⟨"error", "Failed to submit download", "downloader is required, but was not provided", 5000⟩

/-- Message of the error `postDownload` throws when no downloader is given. -/
def downloaderRequiredMsg : String := "downloader is required, but was not provided"

/-- The request body `postDownload` builds once the downloader check passed. -/
def postDownloadBody (urls downloader frequency sub_downloader excludedURLs destination tagNames :
    JsValue) : JsValue :=
  let base := [("urls", urls),
               ("downloader", downloader),
               ("frequency", jsOr frequency .null),
               ("excluded_urls", excludedURLs),
               ("destination", jsOr destination .null)]
  let base := if truthy sub_downloader then base ++ [("sub_downloader", sub_downloader)] else base
  let base := if truthy tagNames then base ++ [("tag_names", tagNames)] else base
  .obj base

/-- The operation `postDownload(...)`: with a falsy downloader it toasts an
error and throws before building any body or touching the network; otherwise
it POSTs the constructed body and resolves with the raw response. -/
def postDownload (f : FetchOracle)
    (urls downloader frequency sub_downloader excludedURLs destination tagNames : JsValue) :
    ApiResult Response :=
  if ¬ truthy downloader then
    (.error (.jsError downloaderRequiredMsg), [postDownloadMissingToast])
  else
    let body := postDownloadBody urls downloader frequency sub_downloader excludedURLs
      destination tagNames
    apiPost f (API_URI ++ "/download") (some body)

/-- Oracle of a fetch that never settles, for any request. -/
def neverOracle : FetchOracle := fun _ => none

/-- Oracle of a fetch rejecting immediately with a network error. -/
def rejectOracle : FetchOracle := fun _ => some (0, .error .networkError)

/-- Oracle of a fetch resolving long after the default timeout, with a 204
response. -/
def lateOracle : FetchOracle := fun _ => some (1000000000, .ok ⟨204, none⟩)

/-- A response carrying the WROL-mode rejection: status 403, code 17. -/
def wrolResponse : Response := ⟨403, some (.obj [("code", .num 17)])⟩

/-- Oracle resolving instantly with the WROL-mode rejection. -/
def wrolOracle : FetchOracle := fun _ => some (0, .ok wrolResponse)

/-- A plain success response carrying a small search envelope. -/
def okResponse : Response :=
  ⟨200, some (.obj [("file_groups", .arr [.num 3]), ("totals", .obj [("file_groups", .num 1)])])⟩

/-- Oracle resolving instantly with the success response. -/
def okOracle : FetchOracle := fun _ => some (0, .ok okResponse)

/-- Oracle resolving instantly with a 500 response whose body is not valid
JSON. -/
def malformedOracle : FetchOracle := fun _ => some (0, .ok ⟨500, none⟩)

/-- Oracle resolving instantly with a 400 application error whose JSON body
carries error code 1. -/
def appErrorOracle : FetchOracle := fun _ => some (0, .ok ⟨400, some (.obj [("code", .num 1)])⟩)

/-- The paginated success envelope of the search endpoints:
`{file_groups: [...], totals: {file_groups: N}}`. -/
def envelopeBody (gs : List JsValue) (n : JsValue) : JsValue :=
  .obj [("file_groups", .arr gs), ("totals", .obj [("file_groups", n)])]

/-- Oracle resolving instantly with a 200 response carrying the success
envelope with one file group. -/
def envelopeOracle : FetchOracle :=
  fun _ => some (0, .ok ⟨200, some (envelopeBody [.num 3] (.num 1))⟩)

/-- Helper: when the fetch has not settled within the timeout, `apiCall`
rejects with the timeout error. -/
theorem apiCall_unsettled_fst (f : FetchOracle) (url method : String) (body : Option JsValue)
    (ms : Nat) (h : unsettledWithin ms (f ⟨url, method, body⟩) = true) :
    (apiCall f url method body ms).1 = .error .promiseTimeout := by
  match hf : f ⟨url, method, body⟩ with
  | none => simp [apiCall, timeoutPromise, hf]
  | some (t, r) =>
    rw [hf] at h
    simp only [unsettledWithin, decide_eq_true_eq] at h
    simp [apiCall, timeoutPromise, hf, Nat.not_lt.mpr h]

/-- Helper: when the race is won by a response outside 2xx whose body parses
as JSON with a readable `code` field, `apiCall` resolves with the raw
response, whatever toast it may emit. -/
theorem apiCall_app_error_fst (f : FetchOracle) (url method : String)
    (body : Option JsValue) (ms t : Nat) (r : Response) (v c : JsValue)
    (hf : f ⟨url, method, body⟩ = some (t, .ok r)) (ht : t < ms)
    (hns : ¬(200 ≤ r.status ∧ r.status < 300))
    (hv : responseJson r = .ok v) (hc : jsGet v "code" = .ok c) :
    (apiCall f url method body ms).1 = .ok r := by
  by_cases hw : r.status = 403 ∧ jsEqNum c 17 <;>
    simp [apiCall, timeoutPromise, hf, ht, hns, hv, hc, hw]

/-- Claim C1: for every `apiCall` with timeout `ms`, if the fetch promise has
not settled within `ms` milliseconds the call rejects with the timeout error
and no timer is left outstanding (the timer fired when it rejected the race,
so nothing remains pending); if the fetch settles at a time strictly below
`ms`, the race settles with the fetch result, the timer is cleared before it
can fire, and no timeout rejection is ever raised even once `ms` elapses. -/
theorem apiCall_timeout_race (f : FetchOracle) (url method : String)
    (body : Option JsValue) (ms : Nat) :
    (unsettledWithin ms (f ⟨url, method, body⟩) = true →
      (apiCall f url method body ms).1 = .error .promiseTimeout ∧
      (timeoutPromise ms (f ⟨url, method, body⟩)).timerPending = false) ∧
    (∀ t r, f ⟨url, method, body⟩ = some (t, r) → t < ms →
      (timeoutPromise ms (f ⟨url, method, body⟩)).outcome = .settled r ∧
      (timeoutPromise ms (f ⟨url, method, body⟩)).outcome ≠ .timedOut ∧
      (timeoutPromise ms (f ⟨url, method, body⟩)).timerPending = false ∧
      (timeoutPromise ms (f ⟨url, method, body⟩)).timerFired = false) := by
  constructor
  · intro h
    match hf : f ⟨url, method, body⟩ with
    | none => simp [apiCall, timeoutPromise, hf]
    | some (t, r) =>
      rw [hf] at h
      simp only [unsettledWithin, decide_eq_true_eq] at h
      simp [apiCall, timeoutPromise, hf, Nat.not_lt.mpr h]
  · intro t r hf ht
    simp [timeoutPromise, hf, ht]

/-- Witness for apiCall_timeout_race: a fetch that never settles times out at
5 milliseconds with no outstanding timer. -/
theorem apiCall_timeout_race_witness :
    (apiCall neverOracle "u" "GET" none 5).1 = .error .promiseTimeout ∧
    (timeoutPromise 5 (neverOracle ⟨"u", "GET", none⟩)).timerPending = false :=
  (apiCall_timeout_race neverOracle "u" "GET" none 5).1 rfl

/-- Claim C2: a response settling before the timeout with status 403 and a
JSON error body whose `code` field is the write-protected-mode sentinel 17
makes `apiCall` emit exactly the one WROL-mode warning toast — for every
URL, method and body, so independently of the triggering operation — and
resolve with the raw error response. -/
theorem apiCall_wrol_interception (f : FetchOracle) (url method : String)
    (body : Option JsValue) (ms t : Nat) (r : Response) (v : JsValue)
    (hf : f ⟨url, method, body⟩ = some (t, .ok r))
    (ht : t < ms) (hs : r.status = 403)
    (hv : responseJson r = .ok v)
    (hc : jsGet v "code" = .ok (.num 17)) :
    apiCall f url method body ms = (.ok r, [wrolModeToast]) := by
  simp [apiCall, timeoutPromise, hf, ht, hs, hv, hc, jsEqNum]

/-- Witness for apiCall_wrol_interception at the concrete 403 code-17
response. -/
theorem apiCall_wrol_interception_witness :
    apiCall wrolOracle "u" "POST" none 60000 = (.ok wrolResponse, [wrolModeToast]) :=
  apiCall_wrol_interception wrolOracle "u" "POST" none 60000 0 wrolResponse
    (.obj [("code", .num 17)]) rfl (by decide) rfl rfl rfl

/-- Claim C3: a response settling before the timeout with status in
[200, 300) is returned raw by `apiCall`: no toast, no body parsing, no
exception. -/
theorem apiCall_success_passthrough (f : FetchOracle) (url method : String)
    (body : Option JsValue) (ms t : Nat) (r : Response)
    (hf : f ⟨url, method, body⟩ = some (t, .ok r)) (ht : t < ms)
    (h2 : 200 ≤ r.status) (h3 : r.status < 300) :
    apiCall f url method body ms = (.ok r, []) := by
  simp [apiCall, timeoutPromise, hf, ht, h2, h3]

/-- Witness for apiCall_success_passthrough at a concrete 200 response. -/
theorem apiCall_success_passthrough_witness :
    apiCall okOracle "u" "GET" none 60000 = (.ok okResponse, []) :=
  apiCall_success_passthrough okOracle "u" "GET" none 60000 0 okResponse rfl
    (by decide) (by decide) (by decide)

/-- Counterexample to claim C4: a 500 response whose body is not valid JSON
makes `apiCall` throw the JSON `SyntaxError` instead of returning the raw
error response — the error-body read is not defensive. -/
theorem apiCall_malformed_body_throws :
    apiCall malformedOracle "u" "GET" none 60000 = (.error .syntaxError, []) ∧
    (apiCall malformedOracle "u" "GET" none 60000).1 ≠ .ok ⟨500, none⟩ := by
  constructor
  · rfl
  · intro h
    simp [apiCall, malformedOracle, timeoutPromise, responseJson] at h

/-- Claim C4 as amended: for a response before the timeout with non-2xx
status, `apiCall` reads the error body and returns the raw error response
when the body is valid JSON whose `code` property access succeeds; when the
body is absent or not valid JSON, the JSON parse error propagates as a
thrown exception instead. -/
theorem apiCall_error_body_handling (f : FetchOracle) (url method : String)
    (body : Option JsValue) (ms t : Nat) (r : Response)
    (hf : f ⟨url, method, body⟩ = some (t, .ok r)) (ht : t < ms)
    (hns : ¬(200 ≤ r.status ∧ r.status < 300)) :
    (∀ v c, responseJson r = .ok v → jsGet v "code" = .ok c →
      (apiCall f url method body ms).1 = .ok r) ∧
    (r.body = none → (apiCall f url method body ms).1 = .error .syntaxError) := by
  constructor
  · intro v c hv hc
    by_cases hw : r.status = 403 ∧ jsEqNum c 17 <;>
      simp [apiCall, timeoutPromise, hf, ht, hns, hv, hc, hw]
  · intro hb
    simp [apiCall, timeoutPromise, hf, ht, hns, responseJson, hb]

/-- Witness for apiCall_error_body_handling at the concrete 500 response
with an absent body. -/
theorem apiCall_error_body_handling_witness :
    ((∀ v c, responseJson ⟨500, none⟩ = .ok v → jsGet v "code" = .ok c →
      (apiCall malformedOracle "u" "GET" none 60000).1 = .ok ⟨500, none⟩) ∧
    ((⟨500, none⟩ : Response).body = none →
      (apiCall malformedOracle "u" "GET" none 60000).1 = .error .syntaxError)) :=
  apiCall_error_body_handling malformedOracle "u" "GET" none 60000 0 ⟨500, none⟩
    rfl (by decide) (by decide)

/-- Counterexample to claim C5: on a well-formed 400 application error,
`filesSearch` resolves with the pair `[null, null]`, not the documented
`[[], 0]`, and `getChannels` resolves with `undefined`, not an empty
array. -/
theorem filesSearch_failure_default_not_tuple :
    (filesSearch appErrorOracle (.num 0) (.num 20) .undefined .undefined .undefined .undefined .undefined).1
      = .ok (.null, .null) ∧
    ((JsValue.null, JsValue.null) ≠ (JsValue.arr [], JsValue.num 0)) ∧
    (getChannels appErrorOracle).1 = .ok .undefined ∧
    JsValue.undefined ≠ JsValue.arr [] := by
  refine ⟨rfl, ?_, rfl, ?_⟩
  · intro h
    exact JsValue.noConfusion (congrArg Prod.fst h)
  · intro h
    exact JsValue.noConfusion h

/-- Claim C5 as amended: on a non-2xx response whose JSON error body is
readable, each list-returning operation resolves with its own coded default
rather than throwing — `[[], 0]` for `searchVideos` and `searchArchives`,
`[null, null]` for `filesSearch`, and `undefined` for `getChannels`. -/
theorem list_operations_failure_defaults (f : FetchOracle) (t : Nat) (r : Response)
    (v c : JsValue)
    (a1 a2 a3 a4 a5 a6 a7 : JsValue)
    (hf : ∀ req, f req = some (t, .ok r)) (ht : t < defaultTimeoutMs)
    (hns : ¬(200 ≤ r.status ∧ r.status < 300))
    (hv : responseJson r = .ok v) (hc : jsGet v "code" = .ok c) :
    (searchVideos f a1 a2 a3 a4 a5 a6 a7).1 = .ok (.arr [], .num 0) ∧
    (searchArchives f a1 a2 a3 a4 a5 a6 a7).1 = .ok (.arr [], .num 0) ∧
    (filesSearch f a1 a2 a3 a4 a5 a6 a7).1 = .ok (.null, .null) ∧
    (getChannels f).1 = .ok .undefined := by
  have h200 : r.status ≠ 200 := by
    intro h
    exact hns ⟨by omega, by omega⟩
  refine ⟨?_, ?_, ?_, ?_⟩
  · have hA := apiCall_app_error_fst f (VIDEOS_API ++ "/search") "POST"
      (some (searchVideosBody a1 a2 a3 a4 a5 a6 a7)) defaultTimeoutMs t r v c
      (hf _) ht hns hv hc
    rcases hP : apiCall f (VIDEOS_API ++ "/search") "POST"
      (some (searchVideosBody a1 a2 a3 a4 a5 a6 a7)) defaultTimeoutMs with ⟨p1, p2⟩
    rw [hP] at hA
    simp at hA
    subst hA
    simp only [searchVideos, apiPost]
    rw [hP]
    simp [h200]
  · have hA := apiCall_app_error_fst f (ARCHIVES_API ++ "/search") "POST"
      (some (searchArchivesBody a1 a2 a3 a4 a5 a6 a7)) defaultTimeoutMs t r v c
      (hf _) ht hns hv hc
    rcases hP : apiCall f (ARCHIVES_API ++ "/search") "POST"
      (some (searchArchivesBody a1 a2 a3 a4 a5 a6 a7)) defaultTimeoutMs with ⟨p1, p2⟩
    rw [hP] at hA
    simp at hA
    subst hA
    simp only [searchArchives, apiPost]
    rw [hP]
    simp [h200]
  · have hA := apiCall_app_error_fst f (API_URI ++ "/files/search") "POST"
      (some (filesSearchBody a1 a2 a3 a4 a5 a6 a7)) defaultTimeoutMs t r v c
      (hf _) ht hns hv hc
    rcases hP : apiCall f (API_URI ++ "/files/search") "POST"
      (some (filesSearchBody a1 a2 a3 a4 a5 a6 a7)) defaultTimeoutMs with ⟨p1, p2⟩
    rw [hP] at hA
    simp at hA
    subst hA
    simp only [filesSearch, apiPost]
    rw [hP]
    simp [h200]
  · have hA := apiCall_app_error_fst f (VIDEOS_API ++ "/channels") "GET" none
      defaultTimeoutMs t r v c (hf _) ht hns hv hc
    rcases hP : apiCall f (VIDEOS_API ++ "/channels") "GET" none defaultTimeoutMs with ⟨p1, p2⟩
    rw [hP] at hA
    simp at hA
    subst hA
    simp only [getChannels, apiGet]
    rw [hP]
    simp [h200]

/-- Witness for list_operations_failure_defaults at the concrete 400
application error. -/
theorem list_operations_failure_defaults_witness :
    (searchVideos appErrorOracle .undefined .undefined .undefined .undefined .undefined .undefined .undefined).1
      = .ok (.arr [], .num 0) ∧
    (searchArchives appErrorOracle .undefined .undefined .undefined .undefined .undefined .undefined .undefined).1
      = .ok (.arr [], .num 0) ∧
    (filesSearch appErrorOracle .undefined .undefined .undefined .undefined .undefined .undefined .undefined).1
      = .ok (.null, .null) ∧
    (getChannels appErrorOracle).1 = .ok .undefined :=
  list_operations_failure_defaults appErrorOracle 0 ⟨400, some (.obj [("code", .num 1)])⟩
    (.obj [("code", .num 1)]) (.num 1) .undefined .undefined .undefined .undefined .undefined .undefined .undefined
    (fun _ => rfl) (by decide) (by decide) rfl rfl

/-- Claim C6: on a 200 response whose JSON body is the paginated envelope
`{file_groups: [...], totals: {file_groups: N}}`, each of `searchVideos`,
`searchArchives` and `filesSearch` resolves with exactly the pair of the
file-group array and the total `N`, emitting no toast. -/
theorem search_envelope_parsing (f : FetchOracle) (t : Nat) (gs : List JsValue) (n : JsValue)
    (a1 a2 a3 a4 a5 a6 a7 : JsValue)
    (hf : ∀ req, f req = some (t, .ok ⟨200, some (envelopeBody gs n)⟩))
    (ht : t < defaultTimeoutMs) :
    searchVideos f a1 a2 a3 a4 a5 a6 a7 = (.ok (.arr gs, n), []) ∧
    searchArchives f a1 a2 a3 a4 a5 a6 a7 = (.ok (.arr gs, n), []) ∧
    filesSearch f a1 a2 a3 a4 a5 a6 a7 = (.ok (.arr gs, n), []) := by
  refine ⟨?_, ?_, ?_⟩ <;>
    simp [searchVideos, searchArchives, filesSearch, apiPost, apiCall, timeoutPromise,
      hf, ht, responseJson, envelopeBody, jsGet, lookupField]

/-- Witness for search_envelope_parsing at a concrete one-element envelope. -/
theorem search_envelope_parsing_witness :
    searchVideos envelopeOracle .undefined .undefined .undefined .undefined .undefined .undefined .undefined
      = (.ok (.arr [.num 3], .num 1), []) ∧
    searchArchives envelopeOracle .undefined .undefined .undefined .undefined .undefined .undefined .undefined
      = (.ok (.arr [.num 3], .num 1), []) ∧
    filesSearch envelopeOracle .undefined .undefined .undefined .undefined .undefined .undefined .undefined
      = (.ok (.arr [.num 3], .num 1), []) :=
  search_envelope_parsing envelopeOracle 0 [.num 3] (.num 1)
    .undefined .undefined .undefined .undefined .undefined .undefined .undefined (fun _ => rfl) (by decide)

/-- Counterexample to claim C7: `getDownloaders` and `deleteDownload` wrap
their calls in try/catch, so a transport failure (here a fetch that never
settles, hence a timeout) does not propagate: they resolve with
`{downloaders: []}` and `null` instead of throwing. -/
theorem getDownloaders_swallows_transport_failures :
    getDownloaders neverOracle = (.ok emptyDownloaders, []) ∧
    (getDownloaders neverOracle).1 ≠ .error .promiseTimeout ∧
    deleteDownload neverOracle "1" = (.ok .null, []) ∧
    (deleteDownload neverOracle "1").1 ≠ .error .promiseTimeout := by
  refine ⟨rfl, ?_, rfl, ?_⟩ <;> (intro h; exact Except.noConfusion h)

/-- Claim C7 as amended: for operation functions without their own
try/catch (here `getChannels` and `getSettings`), a transport failure —
timeout or network rejection — propagates as a thrown error, and a
well-formed application error is swallowed at the operation boundary after
emitting a notification; but `getDownloaders` and `deleteDownload` catch
even transport failures and resolve with their defaults. -/
theorem error_propagation_policy (f1 f2 f3 : FetchOracle) (did : String)
    (t : Nat) (r : Response) (v c : JsValue)
    (hnone : ∀ req, f1 req = none)
    (hrej : ∀ req, f2 req = some (0, .error .networkError))
    (happ : ∀ req, f3 req = some (t, .ok r)) (ht : t < defaultTimeoutMs)
    (hns : ¬(200 ≤ r.status ∧ r.status < 300))
    (hv : responseJson r = .ok v) (hc : jsGet v "code" = .ok c) :
    (getChannels f1).1 = .error .promiseTimeout ∧
    (getSettings f1).1 = .error .promiseTimeout ∧
    (getChannels f2).1 = .error .networkError ∧
    (getSettings f2).1 = .error .networkError ∧
    getDownloaders f1 = (.ok emptyDownloaders, []) ∧
    deleteDownload f1 did = (.ok .null, []) ∧
    (∃ ts, getChannels f3 = (.ok .undefined, ts ++ [getChannelsFailToast])) := by
  refine ⟨?_, ?_, ?_, ?_, ?_, ?_, ?_⟩
  · simp [getChannels, apiGet, apiCall, timeoutPromise, hnone]
  · simp [getSettings, apiGet, apiCall, timeoutPromise, hnone]
  · simp [getChannels, apiGet, apiCall, timeoutPromise, hrej, defaultTimeoutMs]
  · simp [getSettings, apiGet, apiCall, timeoutPromise, hrej, defaultTimeoutMs]
  · simp [getDownloaders, apiGet, apiCall, timeoutPromise, hnone]
  · simp [deleteDownload, apiDelete, apiCall, timeoutPromise, hnone]
  · have h200 : r.status ≠ 200 := by
      intro h
      exact hns ⟨by omega, by omega⟩
    have hA := apiCall_app_error_fst f3 (VIDEOS_API ++ "/channels") "GET" none
      defaultTimeoutMs t r v c (happ _) ht hns hv hc
    rcases hP : apiCall f3 (VIDEOS_API ++ "/channels") "GET" none defaultTimeoutMs with ⟨p1, p2⟩
    rw [hP] at hA
    simp at hA
    subst hA
    refine ⟨p2, ?_⟩
    simp only [getChannels, apiGet]
    rw [hP]
    simp [h200]

/-- Witness for error_propagation_policy at concrete never-settling,
rejecting and application-error oracles. -/
theorem error_propagation_policy_witness :
    (getChannels neverOracle).1 = .error .promiseTimeout ∧
    (getChannels rejectOracle).1 = .error .networkError ∧
    getDownloaders neverOracle = (.ok emptyDownloaders, []) :=
  ⟨(error_propagation_policy neverOracle rejectOracle appErrorOracle "1" 0
      ⟨400, some (.obj [("code", .num 1)])⟩ (.obj [("code", .num 1)]) (.num 1)
      (fun _ => rfl) (fun _ => rfl) (fun _ => rfl) (by decide) (by decide) rfl rfl).1,
   (error_propagation_policy neverOracle rejectOracle appErrorOracle "1" 0
      ⟨400, some (.obj [("code", .num 1)])⟩ (.obj [("code", .num 1)]) (.num 1)
      (fun _ => rfl) (fun _ => rfl) (fun _ => rfl) (by decide) (by decide) rfl rfl).2.2.1,
   (error_propagation_policy neverOracle rejectOracle appErrorOracle "1" 0
      ⟨400, some (.obj [("code", .num 1)])⟩ (.obj [("code", .num 1)]) (.num 1)
      (fun _ => rfl) (fun _ => rfl) (fun _ => rfl) (by decide) (by decide) rfl rfl).2.2.2.2.1⟩

/-- Counterexample to claim C8: `refreshChannel` awaits a raw `fetch` and is
not routed through the guarded executor — with a fetch resolving only at
millisecond 1000000000, far past the 60000 default timeout, it still
resolves normally, while `apiCall` on the very same request rejects with the
timeout error. -/
theorem refreshChannel_not_guarded :
    refreshChannel lateOracle "1" = some (.ok .undefined, []) ∧
    (apiCall lateOracle (VIDEOS_API ++ "/channels/refresh/1") "POST" none defaultTimeoutMs).1
      = .error .promiseTimeout :=
  ⟨rfl, rfl⟩

/-- Claim C8 as amended: the method-specific wrappers fix the HTTP method
and forward the 60000 millisecond default timeout to the guarded executor,
adding no additional semantics, and operations routed through them (here
`getChannels` and `getSettings`) are subject to the timeout guard; but
`refreshChannel` calls `fetch` directly and escapes the guard. -/
theorem wrappers_forward_to_executor (f : FetchOracle) (url : String) (body : Option JsValue) :
    apiGet f url = apiCall f url "GET" none defaultTimeoutMs ∧
    apiDelete f url = apiCall f url "DELETE" none defaultTimeoutMs ∧
    apiPost f url body = apiCall f url "POST" body defaultTimeoutMs ∧
    apiPut f url body = apiCall f url "PUT" body defaultTimeoutMs ∧
    apiPatch f url body = apiCall f url "PATCH" body defaultTimeoutMs ∧
    (unsettledWithin defaultTimeoutMs (f ⟨VIDEOS_API ++ "/channels", "GET", none⟩) = true →
      (getChannels f).1 = .error .promiseTimeout) ∧
    (unsettledWithin defaultTimeoutMs (f ⟨API_URI ++ "/settings", "GET", none⟩) = true →
      (getSettings f).1 = .error .promiseTimeout) := by
  refine ⟨rfl, rfl, rfl, rfl, rfl, ?_, ?_⟩
  · intro h
    have hA := apiCall_unsettled_fst f (VIDEOS_API ++ "/channels") "GET" none defaultTimeoutMs h
    rcases hP : apiCall f (VIDEOS_API ++ "/channels") "GET" none defaultTimeoutMs with ⟨p1, p2⟩
    rw [hP] at hA
    simp at hA
    subst hA
    simp only [getChannels, apiGet]
    rw [hP]
  · intro h
    have hA := apiCall_unsettled_fst f (API_URI ++ "/settings") "GET" none defaultTimeoutMs h
    rcases hP : apiCall f (API_URI ++ "/settings") "GET" none defaultTimeoutMs with ⟨p1, p2⟩
    rw [hP] at hA
    simp at hA
    subst hA
    simp only [getSettings, apiGet]
    rw [hP]

/-- Witness for wrappers_forward_to_executor at the never-settling oracle. -/
theorem wrappers_forward_to_executor_witness :
    apiGet neverOracle "u" = apiCall neverOracle "u" "GET" none defaultTimeoutMs ∧
    (getChannels neverOracle).1 = .error .promiseTimeout :=
  ⟨(wrappers_forward_to_executor neverOracle "u" none).1,
   (wrappers_forward_to_executor neverOracle "u" none).2.2.2.2.2.1 rfl⟩

/-- Claim C9: with a falsy downloader argument, `postDownload` emits exactly
the one missing-downloader error toast and throws, and its result does not
depend on the network oracle at all — no request body is built and the
guarded executor is never consulted. -/
theorem postDownload_requires_downloader (f g : FetchOracle)
    (urls downloader frequency sub_downloader excludedURLs destination tagNames : JsValue)
    (h : truthy downloader = false) :
    postDownload f urls downloader frequency sub_downloader excludedURLs destination tagNames
      = (.error (.jsError downloaderRequiredMsg), [postDownloadMissingToast]) ∧
    postDownload f urls downloader frequency sub_downloader excludedURLs destination tagNames
      = postDownload g urls downloader frequency sub_downloader excludedURLs destination
          tagNames := by
  constructor <;> simp [postDownload, h]

/-- Witness for postDownload_requires_downloader at a missing downloader and
two observably different oracles. -/
theorem postDownload_requires_downloader_witness :
    (postDownload neverOracle .undefined .undefined .undefined .undefined .undefined .undefined .undefined
      = (.error (.jsError downloaderRequiredMsg), [postDownloadMissingToast])) ∧
    postDownload neverOracle .undefined .undefined .undefined .undefined .undefined .undefined .undefined
      = postDownload okOracle .undefined .undefined .undefined .undefined .undefined .undefined .undefined :=
  postDownload_requires_downloader neverOracle okOracle .undefined .undefined .undefined .undefined .undefined
    .undefined .undefined rfl

/-- Counterexample to claim C10: on a 500 settings response whose body is
not valid JSON, `getSettings` does not resolve with `undefined` — it throws
the JSON `SyntaxError`, which `getHotspotStatus` and `getThrottleStatus`
propagate unchanged, so no `TypeError` is raised. -/
theorem settings_malformed_body_not_typeerror :
    (getSettings malformedOracle).1 = .error .syntaxError ∧
    (getHotspotStatus malformedOracle).1 = .error .syntaxError ∧
    (getThrottleStatus malformedOracle).1 = .error .syntaxError ∧
    JsError.syntaxError ≠ JsError.typeError :=
  ⟨rfl, rfl, rfl, by decide⟩

/-- Claim C10 as amended: `getHotspotStatus` and `getThrottleStatus` return
the `hotspot_status` and `throttle_status` fields of the settings payload
exactly when the settings request succeeds with status 200; on a non-200
response that reaches the status branch — any 2xx other than 200, or a
non-2xx whose error body is readable JSON — `getSettings` resolves with
`undefined` and both functions throw a `TypeError` from property access on
`undefined`; a non-2xx response with an unreadable body instead propagates
the JSON parse error. -/
theorem settings_status_propagation (f : FetchOracle) (t : Nat) (r : Response)
    (hf : ∀ req, f req = some (t, .ok r)) (ht : t < defaultTimeoutMs) :
    (∀ v s1 s2, r.status = 200 → responseJson r = .ok v →
      jsGet v "hotspot_status" = .ok s1 → jsGet v "throttle_status" = .ok s2 →
      getHotspotStatus f = (.ok s1, []) ∧ getThrottleStatus f = (.ok s2, [])) ∧
    (∀ v c, r.status ≠ 200 →
      ((200 ≤ r.status ∧ r.status < 300) ∨ (responseJson r = .ok v ∧ jsGet v "code" = .ok c)) →
      (getSettings f).1 = .ok .undefined ∧
      (getHotspotStatus f).1 = .error .typeError ∧
      (getThrottleStatus f).1 = .error .typeError) := by
  constructor
  · intro v s1 s2 hs hv h1 h2
    constructor <;>
      simp [getHotspotStatus, getThrottleStatus, getSettings, apiGet, apiCall, timeoutPromise,
        hf, ht, hs, hv, h1, h2]
  · intro v c h200 hdis
    have hA : (apiCall f (API_URI ++ "/settings") "GET" none defaultTimeoutMs).1 = .ok r := by
      by_cases h2xx : 200 ≤ r.status ∧ r.status < 300
      · simp [apiCall, timeoutPromise, hf, ht, h2xx]
      · rcases hdis with h2xx' | ⟨hv, hc⟩
        · exact absurd h2xx' h2xx
        · exact apiCall_app_error_fst f (API_URI ++ "/settings") "GET" none defaultTimeoutMs
            t r v c (hf _) ht h2xx hv hc
    rcases hP : apiCall f (API_URI ++ "/settings") "GET" none defaultTimeoutMs with ⟨p1, p2⟩
    rw [hP] at hA
    simp at hA
    subst hA
    have hS : getSettings f = (.ok .undefined, p2 ++ [getSettingsFailToast]) := by
      simp only [getSettings, apiGet]
      rw [hP]
      simp [h200]
    refine ⟨?_, ?_, ?_⟩
    · rw [hS]
    · simp [getHotspotStatus, hS, jsGet]
    · simp [getThrottleStatus, hS, jsGet]

/-- Witness for settings_status_propagation at the concrete 400 application
error. -/
theorem settings_status_propagation_witness :
    (getSettings appErrorOracle).1 = .ok .undefined ∧
    (getHotspotStatus appErrorOracle).1 = .error .typeError ∧
    (getThrottleStatus appErrorOracle).1 = .error .typeError :=
  (settings_status_propagation appErrorOracle 0 ⟨400, some (.obj [("code", .num 1)])⟩
    (fun _ => rfl) (by decide)).2 (.obj [("code", .num 1)]) (.num 1) (by decide)
    (.inr ⟨rfl, rfl⟩)
